import Mathlib

/-!
Verification of the real-time connection layer of the jarvis backend.

The development shallowly embeds:

* the active `ConnectionManager` class of `backend/app/core/websocket.py`
  (lines 288-416; the file also contains an earlier, fully commented-out
  variant of the class at lines 1-274 that is *not* part of the running
  program and is not embedded as executable behavior);
* the WebSocket endpoint and its message handlers of
  `backend/app/api/v1/websocket.py`, including the Python call/attribute
  resolution semantics against the active class (keyword-argument binding
  and `AttributeError` on missing methods);
* the `speech_to_text` adapter of `backend/app/services/voice_service.py`.

Conventions: Python dicts whose iteration order matters are modelled as
insertion-ordered association lists; the WebSocket transport is abstracted
into a per-connection success oracle `ok : String → Bool` governing whether
a `send_json` call on that connection succeeds or raises; wall-clock
timestamps produced by `datetime.utcnow().isoformat()` are passed in as an
opaque string `now`.
-/

namespace Jarvis

/-- JSON values, as exchanged in WebSocket envelopes. -/
inductive JValue where
  | str (s : String)
  | num (n : Int)
  | bool (b : Bool)
  | null
  | arr (xs : List JValue)
  | obj (fields : List (String × JValue))

/-- A JSON object payload handed to `send_json`: an insertion-ordered dict. -/
abbrev Msg := List (String × JValue)

/-- A successful `send_json`: which connection received which payload. -/
abbrev Delivery := String × Msg

/-- Python truthiness of `data.get(key)` results (`not frame_data` etc.):
`None`, `""`, `0`, `False`, `[]` and `{}` are falsy. -/
def jFalsy : Option JValue → Bool
  | none => true
  | some (.str s) => s.isEmpty
  | some (.num n) => n == 0
  | some (.bool b) => !b
  | some .null => true
  | some (.arr xs) => xs.isEmpty
  | some (.obj fs) => fs.isEmpty

/-- State of the active `ConnectionManager` (core/websocket.py lines 291-293):
`active_connections : Dict[str, WebSocket]` is modelled by its key list in
insertion order (the `WebSocket` handle itself is abstracted into the
transport oracle), and `user_connections : Dict[str, List[str]]` maps a
user id to the list of its client ids. -/
structure CMState where
  active_connections : List String
  user_connections : List (String × List String)
deriving DecidableEq, Repr

namespace ConnectionManager

/-- Source lines 318-330. `disconnect(client_id, user_id=None)`: deletes the
client from the active dict if present, and — only when a truthy `user_id`
is supplied — filters the client out of the list of that user, dropping the list
when it becomes empty. Total (never raises), as in the source. -/
def disconnect (client_id : String) (user_id : Option String) (st : CMState) : CMState :=
  let active := st.active_connections.filter (fun c => decide (c ≠ client_id))
  let user :=
    match user_id with
    | none => st.user_connections
    | some u =>
      if u = "" then st.user_connections
      else if u ∈ st.user_connections.map Prod.fst then
        let l := ((st.user_connections.lookup u).getD []).filter (fun c => decide (c ≠ client_id))
        if l.isEmpty then st.user_connections.filter (fun p => decide (p.1 ≠ u))
        else st.user_connections.map (fun p => if p.1 = u then (p.1, l) else p)
      else st.user_connections
  ⟨active, user⟩

/-- Source lines 332-339. `send_personal_message(message, client_id)`: if the
client is registered, forward the dict supplied by the caller to `send_json` unchanged;
a transport failure is caught and answered by `self.disconnect(client_id)`
(no `user_id` argument). No timestamp is added here. -/
def send_personal_message (ok : String → Bool) (message : Msg) (client_id : String)
    (st : CMState) : CMState × List Delivery :=
  if client_id ∈ st.active_connections then
    if ok client_id then (st, [(client_id, message)])
    else (disconnect client_id none st, [])
  else (st, [])

/-- The welcome payload constructed inside `connect` (source lines 308-316);
the timestamp is embedded by the caller into the payload itself. -/
def welcomeMsg (client_id now : String) : Msg :=
  [("type", .str "connection"), ("status", .str "connected"),
   ("client_id", .str client_id), ("timestamp", .str now)]

/-- Source lines 295-316. `connect(websocket, client_id, user_id=None)`:
accepts the transport, registers the client id, appends it to the connection list
of that user when a truthy `user_id` is given, then sends the welcome
message through `send_personal_message`. -/
def connect (ok : String → Bool) (now : String) (client_id : String)
    (user_id : Option String) (st : CMState) : CMState × List Delivery :=
  let active :=
    if client_id ∈ st.active_connections then st.active_connections
    else st.active_connections ++ [client_id]
  let user :=
    match user_id with
    | none => st.user_connections
    | some u =>
      if u = "" then st.user_connections
      else if u ∈ st.user_connections.map Prod.fst then
        st.user_connections.map (fun p => if p.1 = u then (p.1, p.2 ++ [client_id]) else p)
      else st.user_connections ++ [(u, [client_id])]
  send_personal_message ok (welcomeMsg client_id now) client_id ⟨active, user⟩

/-- Source lines 341-345. `send_to_user(message, user_id)`: if the user has an
entry, iterate over its (snapshot) client list and forward each through
`send_personal_message`; otherwise do nothing. -/
def send_to_user (ok : String → Bool) (message : Msg) (user_id : String)
    (st : CMState) : CMState × List Delivery :=
  match st.user_connections.lookup user_id with
  | none => (st, [])
  | some l =>
    l.foldl
      (fun acc c =>
        let r := send_personal_message ok message c acc.1
        (r.1, acc.2 ++ r.2))
      (st, [])

/-- The `for client_id, websocket in self.active_connections.items()` sweep of
`broadcast` (source lines 352-358): walk the snapshot of keys in order,
skip excluded ids, record a delivery on success and remember the id in the
`disconnected` list on failure. Returns (deliveries, failed ids), both in
iteration order. -/
def broadcastSweep (ok : String → Bool) (message : Msg) (exclude : List String) :
    List String → List Delivery × List String
  | [] => ([], [])
  | c :: rest =>
    let r := broadcastSweep ok message exclude rest
    if c ∈ exclude then r
    else if ok c then ((c, message) :: r.1, r.2)
    else (r.1, c :: r.2)

/-- Source lines 347-362. `broadcast(message, exclude=None)`: sweep all active
connections (payload forwarded unchanged, no timestamp), then — only after
the sweep — `self.disconnect(client_id)` each failed connection. -/
def broadcast (ok : String → Bool) (message : Msg) (exclude : List String)
    (st : CMState) : CMState × List Delivery :=
  let r := broadcastSweep ok message exclude st.active_connections
  (r.2.foldl (fun s c => disconnect c none s) st, r.1)

/-- Source lines 395-404. `send_error(error, client_id)`: one of the helper
senders that embed a timestamp into the payload they construct before
calling `send_personal_message`. -/
def send_error (ok : String → Bool) (error now : String) (client_id : String)
    (st : CMState) : CMState × List Delivery :=
  send_personal_message ok
    [("type", .str "error"), ("error", .str error), ("timestamp", .str now)]
    client_id st

/-- Source lines 406-408. `get_active_connections_count()`. -/
def get_active_connections_count (st : CMState) : Nat :=
  st.active_connections.length

/-- The method names defined on the active `ConnectionManager` class
(core/websocket.py lines 295-412). Attribute lookup `manager.<name>`
succeeds exactly for these names; any other name raises `AttributeError`.
In particular `send_message`, `join_room`, `leave_room` and `send_to_room`
— which the endpoint calls — exist only in the commented-out variant of
the class and are absent here. -/
def methods : List String :=
  ["connect", "disconnect", "send_personal_message", "send_to_user", "broadcast",
   "send_voice_stream", "send_status_update", "send_thinking_indicator", "send_error",
   "get_active_connections_count", "get_user_connections_count"]

/-- Parameter names of the active `connect` (source line 295):
`(self, websocket, client_id, user_id=None)`. A keyword argument outside
this list makes the call raise `TypeError`. -/
def connectParams : List String := ["self", "websocket", "client_id", "user_id"]

end ConnectionManager

/-! ## The WebSocket endpoint (backend/app/api/v1/websocket.py)

The endpoint invokes `manager.connect(websocket, connection_id, user_id,
metadata={...})`, `manager.send_message`, `manager.join_room`,
`manager.leave_room` and `manager.send_to_room` on the global `manager`,
which is an instance of the *active* `ConnectionManager`. Python resolves
these at run time: a keyword argument that is not a parameter of the
callee raises `TypeError`, and an attribute the class does not define
raises `AttributeError`. Both resolution steps are modelled explicitly. -/

/-- Exceptions arising from the manager calls made by the endpoint. -/
inductive PyExc where
  | typeError (msg : String)
  | attributeError (attr : String)
deriving DecidableEq, Repr

/-- Attribute lookup `manager.<name>` on the active `ConnectionManager`
instance: `AttributeError` unless the active class defines the method. -/
def attrLookup (name : String) : Except PyExc Unit :=
  if name ∈ ConnectionManager.methods then .ok ()
  else .error (.attributeError name)

/-- Keyword arguments the endpoint passes in its `manager.connect` call
(api/v1/websocket.py lines 53-61): `metadata={...}`. -/
def endpointConnectKwargs : List String := ["metadata"]

/-- Outcome of one handler invocation: resulting registry state, the
deliveries made to clients, and whether an exception escaped the handler. -/
structure HandlerResult where
  state : CMState
  deliveries : List Delivery
  raised : Bool

/-- The vision adapter surface used by `handle_camera_frame`
(`detect_faces`, `recognize_face`, `detect_emotion` of
backend/app/services/vision_service.py). Results are modelled as the JSON
dicts the service produces; `.error` stands for a raised exception (e.g.
the `RuntimeError` of an uninitialized service). -/
structure VisionPort where
  detect_faces : String → Except Unit (List JValue)
  recognize_face : String → JValue → Except Unit JValue
  detect_emotion : String → Except Unit JValue

/-- Python dict field access `face["bbox"]` on a JSON value. -/
def jGet (v : JValue) (k : String) : Option JValue :=
  match v with
  | .obj fs => fs.lookup k
  | _ => none

/-- Remainder of the character list after the first occurrence of `sep`, or
`none` when `sep` does not occur. -/
def dropThroughSep (sep : List Char) : List Char → Option (List Char)
  | [] => none
  | c :: rest =>
    if sep.isPrefixOf (c :: rest) then some ((c :: rest).drop sep.length)
    else dropThroughSep sep rest

/-- Characters before the next occurrence of `sep` (the whole list when
`sep` does not occur again). -/
def takeUntilSep (sep : List Char) : List Char → List Char
  | [] => []
  | c :: rest =>
    if sep.isPrefixOf (c :: rest) then [] else c :: takeUntilSep sep rest

/-- The data-URL prefix strip of api/v1/websocket.py lines 256-257: when the
frame string contains `base64,`, keep `frame_data.split("base64,")[1]` —
the chunk between the first separator and the next one (or the end). -/
def stripDataUrl (s : String) : String :=
  match dropThroughSep "base64,".data s.data with
  | none => s
  | some rest => String.mk (takeUntilSep "base64,".data rest)

/-- The recognition loop of api/v1/websocket.py lines 266-272: for each of
the first faces, call `recognize_face(image_bytes, bbox=face["bbox"])`;
a missing `bbox` key (KeyError) or a raise from the adapter aborts the
loop with an exception (caught by the `except` of the handler). -/
def recognizeAll (vs : VisionPort) (image_bytes : String) :
    List JValue → Except Unit (List JValue)
  | [] => .ok []
  | f :: fs =>
    match jGet f "bbox" with
    | none => .error ()
    | some bb =>
      match vs.recognize_face image_bytes bb with
      | .error e => .error e
      | .ok r => (recognizeAll vs image_bytes fs).map (r :: ·)

/-- The `vision_update` reply dict built at api/v1/websocket.py lines
280-286; `emotion` is `None` (JSON `null`) when no face was present. -/
def visionUpdateMsg (faces recognition : List JValue) (emotion : Option JValue)
    (now : String) : Msg :=
  [("type", .str "vision_update"), ("faces", .arr faces),
   ("recognition", .arr recognition), ("emotion", emotion.getD .null),
   ("timestamp", .str now)]

/-- Source api/v1/websocket.py lines 242-289, `handle_camera_frame`. The
whole body is a `try` whose `except` only logs, so the handler never
raises. A falsy/absent `frame` or an absent vision service returns at
once (lines 249-252) with no reply. Otherwise: strip the data-URL prefix,
base64-decode (`b64` is the decoder, `.error` = `binascii.Error`), detect
faces, recognize the first 3, detect emotion when a face exists, then
reply through `manager.send_message` — an attribute the active
`ConnectionManager` does not define, so the send raises `AttributeError`,
which the `except` of the handler swallows. -/
def handle_camera_frame (vision : Option VisionPort) (b64 : String → Except Unit String)
    (now connection_id : String) (data : Msg) (st : CMState) : HandlerResult :=
  let frame_data := data.lookup "frame"
  if jFalsy frame_data || vision.isNone then ⟨st, [], false⟩
  else
    match frame_data, vision with
    | some (.str s), some vs =>
      match b64 (stripDataUrl s) with
      | .error _ => ⟨st, [], false⟩
      | .ok image_bytes =>
        match vs.detect_faces image_bytes with
        | .error _ => ⟨st, [], false⟩
        | .ok faces =>
          match recognizeAll vs image_bytes (faces.take 3) with
          | .error _ => ⟨st, [], false⟩
          | .ok recognition_results =>
            let emotionRes : Except Unit (Option JValue) :=
              if faces.isEmpty then .ok none
              else (vs.detect_emotion image_bytes).map some
            match emotionRes with
            | .error _ => ⟨st, [], false⟩
            | .ok emotion =>
              match attrLookup "send_message" with
              | .error _ => ⟨st, [], false⟩
              | .ok _ =>
                -- never reached in this repository: `send_message` is not a
                -- method of the active class (`attrLookup` returns `.error`)
                ⟨st, [(connection_id,
                       visionUpdateMsg faces recognition_results emotion now)], false⟩
    | _, _ =>
      -- a truthy non-string frame: `base64.b64decode` raises `TypeError`,
      -- caught by the `except` of the handler (line 288)
      ⟨st, [], false⟩

/-- Result shape of the speech-to-text adapter (`{text, language, segments,
confidence}`), shared by `handle_audio_chunk` and `speech_to_text`. -/
structure SttResponse where
  text : String
  language : String
  segments : List JValue
  confidence : ℚ

/-- Source api/v1/websocket.py lines 291-332, `handle_audio_chunk`. A
falsy/absent `audio` field or an absent voice service returns at once
(lines 301-304) with no reply; otherwise decode, transcribe (`stt`,
`.error` = a raise from the adapter), and reply through
`manager.send_message`, which raises `AttributeError` on the active class;
the `except` of the handler only logs, so nothing escapes. -/
def handle_audio_chunk (voice : Option (String → Except Unit SttResponse))
    (b64 : String → Except Unit String) (connection_id : String) (data : Msg)
    (st : CMState) : HandlerResult :=
  let audio_data := data.lookup "audio"
  if jFalsy audio_data || voice.isNone then ⟨st, [], false⟩
  else
    match audio_data, voice with
    | some (.str s), some stt =>
      match b64 s with
      | .error _ => ⟨st, [], false⟩
      | .ok audio_bytes =>
        match stt audio_bytes with
        | .error _ => ⟨st, [], false⟩
        | .ok _result =>
          match attrLookup "send_message" with
          | .error _ => ⟨st, [], false⟩
          | .ok _ =>
            -- never reached: the transcription reply (and the re-dispatch of
            -- a final chunk through the voice-command path, lines 313-329)
            -- sits behind the absent `send_message` attribute
            ⟨st, [], false⟩
    | _, _ => ⟨st, [], false⟩

/-- Source api/v1/websocket.py lines 181-240, `handle_voice_command`. Every
path of the `try` body replies through `manager.send_message` (empty text
→ error reply, brain present → voice response, brain absent → limited-mode
response), which raises `AttributeError` on the active class; the
handler-level `except Exception` block (lines 234-240) then *also* calls
`manager.send_message`, so the `AttributeError` escapes the handler. -/
def handle_voice_command (st : CMState) : Except PyExc (CMState × List Delivery) :=
  match attrLookup "send_message" with
  | .ok _ => .ok (st, [])  -- never reached: the attribute is absent
  | .error _ => .error (.attributeError "send_message")

/-- One iteration of the receive loop of the endpoint (api/v1/websocket.py lines
94-163): extract `data.get("type")` and branch. Branches whose only manager
call is a method absent from the active class surface the `AttributeError`;
`camera_frame` and `audio_chunk` delegate to handlers that swallow it. -/
def dispatchOnce (vision : Option VisionPort)
    (voice : Option (String → Except Unit SttResponse))
    (b64 : String → Except Unit String) (now connection_id : String)
    (env : Msg) (st : CMState) : Except PyExc (CMState × List Delivery) :=
  match env.lookup "type" with
  | some (.str t) =>
    if t = "ping" then
      -- line 101: `manager.send_message(connection_id, {type: pong, ...})`
      (attrLookup "send_message").map (fun _ => (st, []))
    else if t = "voice_command" then
      handle_voice_command st
    else if t = "camera_frame" then
      let r := handle_camera_frame vision b64 now connection_id env st
      .ok (r.state, r.deliveries)
    else if t = "audio_chunk" then
      let r := handle_audio_chunk voice b64 connection_id env st
      .ok (r.state, r.deliveries)
    else if t = "join_room" then
      -- line 133: `manager.join_room(connection_id, room)`
      (attrLookup "join_room").map (fun _ => (st, []))
    else if t = "leave_room" then
      -- lines 140-146: only acts when `data.get("room")` is truthy
      if jFalsy (env.lookup "room") then .ok (st, [])
      else (attrLookup "leave_room").map (fun _ => (st, []))
    else if t = "broadcast" then
      -- line 152: `manager.send_to_room(room, {...})`
      (attrLookup "send_to_room").map (fun _ => (st, []))
    else
      -- lines 158-163: reply with an error envelope naming the unknown type
      (attrLookup "send_message").map (fun _ => (st, []))
  | _ =>
    -- a missing or non-string `type` compares unequal to every branch tag
    (attrLookup "send_message").map (fun _ => (st, []))

/-- Outcome of a whole endpoint session. `loopEntered` records whether the
receive loop dispatched at least one envelope. -/
structure EndpointResult where
  state : CMState
  deliveries : List Delivery
  loopEntered : Bool

/-- The outer `except Exception` path of the endpoint (api/v1/websocket.py lines
169-179): it first tries `manager.send_message(...)` to notify the client —
which raises `AttributeError` (absent on the active class) and is swallowed
by the bare `except: pass` — then calls `manager.disconnect(connection_id)`
with no `user_id`. -/
def exceptPath (connection_id : String) (st : CMState) (ds : List Delivery)
    (entered : Bool) : EndpointResult :=
  ⟨ConnectionManager.disconnect connection_id none st, ds, entered⟩

/-- The `while True` receive loop (api/v1/websocket.py lines 92-163): an
exhausted message list stands for the client closing the transport, which
makes `receive_json` raise `WebSocketDisconnect`, handled at lines 165-167
by `manager.disconnect(connection_id)` (again with no `user_id`). -/
def endpointLoop (vision : Option VisionPort)
    (voice : Option (String → Except Unit SttResponse))
    (b64 : String → Except Unit String) (now connection_id : String) :
    List Msg → CMState → List Delivery → Bool → EndpointResult
  | [], st, ds, entered =>
    ⟨ConnectionManager.disconnect connection_id none st, ds, entered⟩
  | env :: rest, st, ds, _entered =>
    match dispatchOnce vision voice b64 now connection_id env st with
    | .ok (st', ds') => endpointLoop vision voice b64 now connection_id rest st' (ds ++ ds') true
    | .error _ => exceptPath connection_id st ds true

/-- Source api/v1/websocket.py lines 19-179, `websocket_endpoint`, with the
manager calls resolved against the active `ConnectionManager`. The first
statement of the `try` body is `manager.connect(websocket, connection_id,
user_id, metadata={...})`; Python binds the keyword arguments against the
parameters of the callee, and `metadata` is not a parameter of the active
`connect`, so the call raises `TypeError` and control transfers to the
outer `except Exception` branch before the loop starts. -/
def websocket_endpoint (ok : String → Bool) (vision : Option VisionPort)
    (voice : Option (String → Except Unit SttResponse))
    (b64 : String → Except Unit String) (now connection_id : String)
    (user_id : Option String) (msgs : List Msg) (st : CMState) : EndpointResult :=
  if endpointConnectKwargs.all (fun k => k ∈ ConnectionManager.connectParams) then
    -- never reached in this repository: "metadata" binds to no parameter
    let r := ConnectionManager.connect ok now connection_id user_id st
    match attrLookup "send_message" with  -- welcome message, line 64
    | .error _ => exceptPath connection_id r.1 r.2 false
    | .ok _ =>
      match attrLookup "join_room" with  -- default room join, line 73
      | .error _ => exceptPath connection_id r.1 r.2 false
      | .ok _ => endpointLoop vision voice b64 now connection_id msgs r.1 r.2 false
  else
    exceptPath connection_id st [] false

/-! ## The speech-to-text adapter (backend/app/services/voice_service.py) -/

namespace VoiceService

/-- The flags of `VoiceService` that steer `speech_to_text`
(voice_service.py lines 49-57): whether background initialization has
completed, whether the service runs in mock mode, and whether
`self.stt_model` holds a loaded model. -/
structure VoiceState where
  is_initialized : Bool
  mock_mode : Bool
  stt_model : Bool
deriving DecidableEq, Repr

/-- Per-call environment of `speech_to_text`: the cache lookup result
(`cache.get` catches its own errors and returns the cached value or None,
see core/cache.py lines 55-79), the `wavfile.read` outcome, and the
Whisper transcription outcome, normalized to the response dict built at
lines 181-186 (`.error` = the transcription raised). -/
structure SttEnv where
  cached : Option SttResponse
  wav_read : Except Unit Unit
  whisper : Except Unit SttResponse

/-- The mock response of voice_service.py lines 367-374: note its
`confidence` is 0.95. -/
def mockSttResponse : SttResponse :=
  ⟨"Hello Jarvis, what\x27s the weather today?", "en", [], (95 : ℚ) / 100⟩

/-- The `RuntimeError("Voice service not initialized")` of line 141. -/
inductive VoiceExc where
  | runtimeError (msg : String)
deriving DecidableEq, Repr

/-- Source voice_service.py lines 125-196, `speech_to_text`. Raises
`RuntimeError` when the service is not yet initialized (lines 140-141);
otherwise: cache hit short-circuits; mock mode or a missing model returns
the mock response; a failed `wavfile.read` returns the mock response
(lines 158-162); a raise during transcription returns the mock response
(lines 194-196); success returns the normalized response. -/
def speech_to_text (svc : VoiceState) (env : SttEnv) (_audio_data _language : String) :
    Except VoiceExc SttResponse :=
  if !svc.is_initialized then .error (.runtimeError "Voice service not initialized")
  else
    match env.cached with
    | some cached => .ok cached
    | none =>
      if svc.mock_mode || !svc.stt_model then .ok mockSttResponse
      else
        match env.wav_read with
        | .error _ => .ok mockSttResponse
        | .ok _ =>
          match env.whisper with
          | .error _ => .ok mockSttResponse
          | .ok r => .ok r

end VoiceService

/-- A vision adapter for the no-face scenario: an initialized service whose
`detect_faces` finds nothing in the given image. -/
def visionSeeingNoFaces : VisionPort :=
  ⟨fun _ => .ok [], fun _ _ => .ok .null, fun _ => .ok .null⟩

/-- Transport oracle for a healthy transport: every `send_json` succeeds. -/
def okAll : String → Bool := fun _ => true

/-- A base64 decoder oracle that accepts its input (the identity decode). -/
def b64Id : String → Except Unit String := fun s => .ok s

/-! ## Helper lemmas -/

theorem send_personal_message_live_ok (ok : String → Bool) (msg : Msg) (c : String)
    (st : CMState) (hc : c ∈ st.active_connections) (hok : ok c = true) :
    ConnectionManager.send_personal_message ok msg c st = (st, [(c, msg)]) := by
  simp [ConnectionManager.send_personal_message, hc, hok]

theorem send_personal_message_payload (ok : String → Bool) (msg : Msg) (c : String)
    (st : CMState) :
    ∀ d ∈ (ConnectionManager.send_personal_message ok msg c st).2, d.2 = msg := by
  intro d hd
  unfold ConnectionManager.send_personal_message at hd
  split at hd
  · split at hd
    · simp at hd
      simp [hd]
    · simp at hd
  · simp at hd

theorem broadcastSweep_payload (ok : String → Bool) (msg : Msg) (excl : List String)
    (l : List String) :
    ∀ d ∈ (ConnectionManager.broadcastSweep ok msg excl l).1, d.2 = msg := by
  induction l with
  | nil => intro d hd; simp [ConnectionManager.broadcastSweep] at hd
  | cons c rest ih =>
    intro d hd
    unfold ConnectionManager.broadcastSweep at hd
    split at hd
    · exact ih d hd
    · split at hd
      · rcases List.mem_cons.mp hd with h | h
        · simp [h]
        · exact ih d h
      · exact ih d hd

/-! ## C2: server-side timestamp at send time -/

/-- C2 counterexample: with one live connection and a healthy transport,
`send_personal_message` and `broadcast` deliver the payload of the caller
`{"type": "x"}` exactly as passed — the delivered JSON has no `timestamp`
key, so no server-side timestamp is added at send time. -/
theorem send_counterexample_no_timestamp :
    (ConnectionManager.send_personal_message okAll [("type", JValue.str "x")] "c1"
        ⟨["c1"], []⟩).2 = [("c1", [("type", JValue.str "x")])] ∧
    (ConnectionManager.broadcast okAll [("type", JValue.str "x")] []
        ⟨["c1"], []⟩).2 = [("c1", [("type", JValue.str "x")])] ∧
    ([("type", JValue.str "x")] : Msg).lookup "timestamp" = none := by
  refine ⟨rfl, rfl, rfl⟩

/-- C2 amended: the send path adds nothing — every payload delivered by
`send_personal_message` or `broadcast` is byte-for-byte the message
of the caller, so it carries a timestamp only if the caller embedded one; the
payload-constructing helpers of the manager (such as `send_error`) do embed
a server-side timestamp when building the payload. -/
theorem outbound_payload_verbatim (ok : String → Bool) (msg : Msg)
    (cid e now : String) (excl : List String) (st : CMState) :
    (∀ d ∈ (ConnectionManager.send_personal_message ok msg cid st).2, d.2 = msg) ∧
    (∀ d ∈ (ConnectionManager.broadcast ok msg excl st).2, d.2 = msg) ∧
    (∀ d ∈ (ConnectionManager.send_error ok e now cid st).2,
        d.2.lookup "timestamp" = some (.str now)) := by
  refine ⟨send_personal_message_payload ok msg cid st, ?_, ?_⟩
  · intro d hd
    exact broadcastSweep_payload ok msg excl st.active_connections d hd
  · intro d hd
    have h := send_personal_message_payload ok
      [("type", .str "error"), ("error", .str e), ("timestamp", .str now)] cid st d hd
    rw [h]
    rfl

/-- Witness for `outbound_payload_verbatim` at a concrete state and a
concrete delivery of `broadcast`. -/
theorem outbound_payload_verbatim_witness :
    (("c1", [("k", JValue.num 1)]) : Delivery).2 = [("k", JValue.num 1)] :=
  (outbound_payload_verbatim okAll [("k", JValue.num 1)] "c1" "boom" "T0" []
    ⟨["c1"], []⟩).2.1 ("c1", [("k", JValue.num 1)]) (List.mem_cons_self _ _)

/-! ## C3: send_to_user and the single-session-per-user model -/

/-- C3 counterexample: after `connect("c1", user_id="u1")` and
`connect("c2", user_id="u1")` the user index maps `u1` to both client ids,
and `send_to_user` delivers the message to *both* live connections — the
active manager keeps a list of sessions per user, not at most one. -/
theorem send_to_user_counterexample_two_sessions :
    (ConnectionManager.send_to_user okAll [("type", JValue.str "m")] "u1"
        (ConnectionManager.connect okAll "T0" "c2" (some "u1")
          (ConnectionManager.connect okAll "T0" "c1" (some "u1") ⟨[], []⟩).1).1).2.map
        Prod.fst = ["c1", "c2"] := by
  rfl

/-- The `for client_id in self.user_connections[user_id]` fold of
`send_to_user`: when every listed client is live and its send succeeds,
the registry state is unchanged and the message goes to each client in
list order, appended to the accumulator. -/
theorem send_to_user_fold (msg : Msg) (st : CMState) (l : List String)
    (h : ∀ c ∈ l, c ∈ st.active_connections) (ds : List Delivery) :
    l.foldl
      (fun acc c =>
        let r := ConnectionManager.send_personal_message okAll msg c acc.1
        (r.1, acc.2 ++ r.2))
      (st, ds) = (st, ds ++ l.map (fun c => (c, msg))) := by
  induction l generalizing ds with
  | nil => simp
  | cons c rest ih =>
    have hc : c ∈ st.active_connections := h c (List.mem_cons_self c rest)
    have hrest : ∀ x ∈ rest, x ∈ st.active_connections :=
      fun x hx => h x (List.mem_cons_of_mem c hx)
    simp only [List.foldl_cons,
      send_personal_message_live_ok okAll msg c st hc rfl]
    rw [ih hrest]
    simp

/-- C3 amended: `send_to_user(U, msg)` delivers to *every* connection in
the index entry of U (the active manager allows several concurrent sessions per
user), in list order; when U has no entry the call is a no-op that leaves
the state untouched and returns normally (no exception). -/
theorem send_to_user_delivers_to_all (msg : Msg) (u : String) (st : CMState) :
    (st.user_connections.lookup u = none →
      ConnectionManager.send_to_user okAll msg u st = (st, [])) ∧
    (∀ l, st.user_connections.lookup u = some l →
      (∀ c ∈ l, c ∈ st.active_connections) →
      ConnectionManager.send_to_user okAll msg u st
        = (st, l.map (fun c => (c, msg)))) := by
  constructor
  · intro h
    simp [ConnectionManager.send_to_user, h]
  · intro l hl hall
    unfold ConnectionManager.send_to_user
    rw [hl]
    simpa using send_to_user_fold msg st l hall []

/-- Witness for `send_to_user_delivers_to_all`: a user with two live
sessions receives the message on both. -/
theorem send_to_user_delivers_to_all_witness :
    ConnectionManager.send_to_user okAll [("type", JValue.str "m")] "u1"
        ⟨["c1", "c2"], [("u1", ["c1", "c2"])]⟩
      = (⟨["c1", "c2"], [("u1", ["c1", "c2"])]⟩,
         [("c1", [("type", JValue.str "m")]), ("c2", [("type", JValue.str "m")])]) := by
  have h := (send_to_user_delivers_to_all [("type", JValue.str "m")] "u1"
    ⟨["c1", "c2"], [("u1", ["c1", "c2"])]⟩).2 ["c1", "c2"] rfl (by decide)
  simpa using h

/-! ## Association-list lemmas for the user index -/

theorem lookup_some_of_mem_keys {α : Type} (u : String) (l : List (String × α))
    (h : u ∈ l.map Prod.fst) : ∃ v, l.lookup u = some v := by
  induction l with
  | nil => simp at h
  | cons p rest ih =>
    obtain ⟨k, w⟩ := p
    by_cases hk : k = u
    · subst hk
      exact ⟨w, by simp [List.lookup]⟩
    · have hne : (u == k) = false := by simpa using fun hh => hk hh.symm
      have hmem : u ∈ rest.map Prod.fst := by
        rw [List.map_cons] at h
        rcases List.mem_cons.mp h with h1 | h1
        · exact absurd h1.symm hk
        · exact h1
      rcases ih hmem with ⟨v, hv⟩
      exact ⟨v, by simpa [List.lookup, hne] using hv⟩

theorem mem_keys_of_lookup_some {α : Type} (u : String) (l : List (String × α))
    (v : α) (h : l.lookup u = some v) : u ∈ l.map Prod.fst := by
  induction l with
  | nil => simp [List.lookup] at h
  | cons p rest ih =>
    obtain ⟨k, w⟩ := p
    by_cases hk : k = u
    · simp [hk]
    · have hne : (u == k) = false := by simpa using fun hh => hk hh.symm
      simp only [List.lookup, hne] at h
      simpa using Or.inr (ih h)

theorem lookup_map_append (c u : String) (l : List (String × List String)) :
    ∀ v, l.lookup u = some v →
      (l.map (fun p => if p.1 = u then (p.1, p.2 ++ [c]) else p)).lookup u
        = some (v ++ [c]) := by
  induction l with
  | nil => intro v hv; simp [List.lookup] at hv
  | cons p rest ih =>
    intro v hv
    obtain ⟨k, w⟩ := p
    rw [List.map_cons]
    by_cases hk : k = u
    · subst hk
      simp only [List.lookup, beq_self_eq_true] at hv
      have hw : w = v := by injection hv
      subst hw
      rw [show (if (k, w).1 = k then ((k, w).1, (k, w).2 ++ [c]) else (k, w))
            = (k, w ++ [c]) by simp]
      simp [List.lookup]
    · have hne : (u == k) = false := by simpa using fun hh => hk hh.symm
      simp only [List.lookup, hne] at hv
      rw [show (if (k, w).1 = u then ((k, w).1, (k, w).2 ++ [c]) else (k, w))
            = (k, w) by simp [hk]]
      simpa [List.lookup, hne] using ih v hv

theorem lookup_append_new (u : String) (v : List String)
    (l : List (String × List String)) (h : u ∉ l.map Prod.fst) :
    (l ++ [(u, v)]).lookup u = some v := by
  induction l with
  | nil => simp [List.lookup]
  | cons p rest ih =>
    obtain ⟨k, w⟩ := p
    have hk : ¬(k = u) := by
      intro hh
      exact h (by simp [hh])
    have hne : (u == k) = false := by simpa using fun hh => hk hh.symm
    have hmem : u ∉ rest.map Prod.fst := by
      intro hh
      exact h (by simp [hh])
    simpa [List.lookup, hne] using ih hmem

theorem lookup_filter_keys_ne (u : String) {α : Type} (l : List (String × α)) :
    (l.filter (fun p => decide (p.1 ≠ u))).lookup u = none := by
  induction l with
  | nil => simp
  | cons p rest ih =>
    obtain ⟨k, w⟩ := p
    by_cases hk : k = u
    · simpa [List.filter, hk] using ih
    · have hne : (u == k) = false := by simpa using fun hh => hk hh.symm
      simpa [List.filter, hk, List.lookup, hne] using ih

theorem lookup_map_set (u : String) (v : List String)
    (l : List (String × List String)) (h : u ∈ l.map Prod.fst) :
    (l.map (fun p => if p.1 = u then (p.1, v) else p)).lookup u = some v := by
  induction l with
  | nil => simp at h
  | cons p rest ih =>
    obtain ⟨k, w⟩ := p
    rw [List.map_cons]
    by_cases hk : k = u
    · subst hk
      rw [show (if (k, w).1 = k then ((k, w).1, v) else (k, w)) = (k, v) by simp]
      simp [List.lookup]
    · have hne : (u == k) = false := by simpa using fun hh => hk hh.symm
      have hmem : u ∈ rest.map Prod.fst := by
        rw [List.map_cons] at h
        rcases List.mem_cons.mp h with h1 | h1
        · exact absurd h1.symm hk
        · exact h1
      rw [show (if (k, w).1 = u then ((k, w).1, v) else (k, w)) = (k, w) by simp [hk]]
      simpa [List.lookup, hne] using ih hmem

/-! ## C4: user index consistent with registry membership -/

/-- C4 counterexample: register `c1` for user `u1`, then disconnect it the
way the endpoint does on transport close — `manager.disconnect(connection_id)`
with no `user_id` (api/v1/websocket.py lines 165-167 and 179). The
connection is gone from the active map, yet the user index still maps `u1`
to `["c1"]`: the entry exists while the underlying connection is dead. -/
theorem user_index_counterexample_dangling :
    (ConnectionManager.disconnect "c1" none
        (ConnectionManager.connect okAll "T0" "c1" (some "u1")
          ⟨[], []⟩).1).user_connections.lookup "u1" = some ["c1"] ∧
    decide ("c1" ∈ (ConnectionManager.disconnect "c1" none
        (ConnectionManager.connect okAll "T0" "c1" (some "u1")
          ⟨[], []⟩).1).active_connections) = false := by
  exact ⟨rfl, by decide⟩

/-- C4 amended: the consistency holds only when `disconnect` is given the
`user_id` of the connection. Concretely: `connect(c, u)` (healthy transport)
makes `c` live and indexed under `u`; `disconnect(c, u)` removes `c` from
the active map and from the index entry of `u`; but `disconnect(c)` without a
`user_id` — the only form the endpoint ever issues — leaves the entire
user index untouched, so an index entry may outlive its connection. -/
theorem user_index_requires_user_id (ok : String → Bool) (now c u : String)
    (st : CMState) (hu : u ≠ "") (hok : ok c = true) :
    (c ∈ (ConnectionManager.connect ok now c (some u) st).1.active_connections ∧
      ∃ l, (ConnectionManager.connect ok now c (some u)
              st).1.user_connections.lookup u = some l ∧ c ∈ l) ∧
    (c ∉ (ConnectionManager.disconnect c (some u) st).active_connections ∧
      ∀ l, (ConnectionManager.disconnect c (some u) st).user_connections.lookup u
          = some l → c ∉ l) ∧
    (ConnectionManager.disconnect c none st).user_connections
        = st.user_connections := by
  refine ⟨?_, ⟨?_, ?_⟩, rfl⟩
  · -- connect: c becomes live and indexed
    unfold ConnectionManager.connect
    have hmem : c ∈ (if c ∈ st.active_connections then st.active_connections
        else st.active_connections ++ [c]) := by
      split <;> simp_all
    rw [send_personal_message_live_ok _ _ _ _ hmem hok]
    refine ⟨hmem, ?_⟩
    simp only [hu, if_false]
    by_cases hk : u ∈ st.user_connections.map Prod.fst
    · rcases lookup_some_of_mem_keys u st.user_connections hk with ⟨v, hv⟩
      refine ⟨v ++ [c], ?_, by simp⟩
      simp only [hk, if_true]
      exact lookup_map_append c u st.user_connections v hv
    · refine ⟨[c], ?_, by simp⟩
      simp only [hk, if_false]
      exact lookup_append_new u [c] st.user_connections hk
  · -- disconnect with user id: c leaves the active map
    unfold ConnectionManager.disconnect
    simp
  · -- disconnect with user id: c leaves the index entry of u
    intro l hl
    unfold ConnectionManager.disconnect at hl
    simp only [hu, if_false] at hl
    by_cases hk : u ∈ st.user_connections.map Prod.fst
    · simp only [hk, if_true] at hl
      set l0 := ((st.user_connections.lookup u).getD []).filter
        (fun x => decide (x ≠ c)) with hl0
      by_cases hemp : l0.isEmpty
      · rw [if_pos hemp] at hl
        rw [lookup_filter_keys_ne u st.user_connections] at hl
        exact Option.noConfusion hl
      · rw [if_neg hemp] at hl
        rw [lookup_map_set u l0 st.user_connections hk] at hl
        obtain rfl : l0 = l := by injection hl
        intro hcl
        have := List.of_mem_filter hcl
        simp at this
    · simp only [hk, if_false] at hl
      exact absurd (mem_keys_of_lookup_some u st.user_connections l hl) hk

/-- Witness for `user_index_requires_user_id` at concrete arguments. -/
theorem user_index_requires_user_id_witness :
    "c1" ∈ (ConnectionManager.connect okAll "T0" "c1" (some "u1")
        ⟨[], []⟩).1.active_connections ∧
    (ConnectionManager.disconnect "c1" none ⟨["c1"], [("u1", ["c1"])]⟩).user_connections
        = [("u1", ["c1"])] := by
  refine ⟨(user_index_requires_user_id okAll "T0" "c1" "u1" ⟨[], []⟩
    (by decide) rfl).1.1, ?_⟩
  exact (user_index_requires_user_id okAll "T0" "c1" "u1"
    ⟨["c1"], [("u1", ["c1"])]⟩ (by decide) rfl).2.2

/-! ## C6: connect/disconnect counting and idempotence -/

theorem filter_idem {α : Type} (p : α → Bool) (l : List α) :
    (l.filter p).filter p = l.filter p := by
  induction l with
  | nil => rfl
  | cons a rest ih =>
    by_cases ha : p a
    · simp [List.filter, ha, ih]
    · simp only [Bool.not_eq_true] at ha
      simp [List.filter, ha, ih]

theorem length_filter_ne_of_nodup (c : String) (l : List String)
    (hn : l.Nodup) (hc : c ∈ l) :
    (l.filter (fun x => decide (x ≠ c))).length = l.length - 1 := by
  induction l with
  | nil => simp at hc
  | cons a rest ih =>
    rcases List.nodup_cons.mp hn with ⟨hna, hnr⟩
    by_cases hac : a = c
    · subst hac
      have hself : rest.filter (fun x => decide (x ≠ a)) = rest :=
        List.filter_eq_self.mpr (fun x hx => by
          simp only [decide_eq_true_eq]
          exact fun hxa => hna (hxa ▸ hx))
      rw [List.filter_cons_of_neg (by simp), hself]
      simp
    · have hcr : c ∈ rest := by
        rcases List.mem_cons.mp hc with h1 | h1
        · exact absurd h1.symm hac
        · exact h1
      have hpos : 0 < rest.length := List.length_pos.mpr (List.ne_nil_of_mem hcr)
      rw [List.filter_cons_of_pos (by simpa using hac)]
      rw [List.length_cons, List.length_cons, ih hnr hcr]
      omega

theorem not_mem_keys_filter_self {α : Type} (u : String) (l : List (String × α)) :
    u ∉ (l.filter (fun p => decide (p.1 ≠ u))).map Prod.fst := by
  intro h
  rcases List.mem_map.mp h with ⟨q, hq, hq1⟩
  have := List.of_mem_filter hq
  simp only [decide_eq_true_eq] at this
  exact this hq1

theorem keys_map_upd (u : String) (v : List String)
    (l : List (String × List String)) :
    ((l.map (fun p => if p.1 = u then (p.1, v) else p)).map Prod.fst)
      = l.map Prod.fst := by
  rw [List.map_map]
  apply List.map_congr_left
  intro p _
  by_cases hp : p.1 = u <;> simp [hp]

theorem map_upd_idem (u : String) (v : List String)
    (l : List (String × List String)) :
    ((l.map (fun p => if p.1 = u then (p.1, v) else p)).map
        (fun p => if p.1 = u then (p.1, v) else p))
      = l.map (fun p => if p.1 = u then (p.1, v) else p) := by
  rw [List.map_map]
  apply List.map_congr_left
  intro p _
  by_cases hp : p.1 = u <;> simp [hp]

/-- C6: for a fresh connection over a healthy transport, `connect` raises
the active-connection count by exactly 1; `disconnect` of a live
connection lowers it by exactly 1; and repeating the same `disconnect`
leaves the whole registry state unchanged (`disconnect` is a total
function — no exception path exists in its body). -/
theorem connect_disconnect_count_idem (ok : String → Bool) (now c : String)
    (u uo : Option String) (st : CMState) :
    (c ∉ st.active_connections → ok c = true →
      ConnectionManager.get_active_connections_count
          (ConnectionManager.connect ok now c u st).1
        = ConnectionManager.get_active_connections_count st + 1) ∧
    (c ∈ st.active_connections → st.active_connections.Nodup →
      ConnectionManager.get_active_connections_count
          (ConnectionManager.disconnect c uo st)
        = ConnectionManager.get_active_connections_count st - 1) ∧
    (ConnectionManager.disconnect c uo (ConnectionManager.disconnect c uo st)
        = ConnectionManager.disconnect c uo st) := by
  refine ⟨?_, ?_, ?_⟩
  · intro hnew hok
    unfold ConnectionManager.connect
    rw [if_neg hnew]
    have hmem : c ∈ st.active_connections ++ [c] := by simp
    rw [send_personal_message_live_ok _ _ _ _ hmem hok]
    simp [ConnectionManager.get_active_connections_count]
  · intro hlive hnodup
    unfold ConnectionManager.disconnect ConnectionManager.get_active_connections_count
    exact length_filter_ne_of_nodup c st.active_connections hnodup hlive
  · unfold ConnectionManager.disconnect
    refine congrArg₂ CMState.mk (filter_idem _ _) ?_
    cases uo with
    | none => rfl
    | some v =>
      by_cases hv : v = ""
      · simp [hv]
      · simp only [hv, if_false]
        by_cases hk : v ∈ st.user_connections.map Prod.fst
        · rcases lookup_some_of_mem_keys v st.user_connections hk with ⟨l0, hl0⟩
          simp only [hk, if_true, hl0, Option.getD_some]
          by_cases hemp : (l0.filter (fun x => decide (x ≠ c))).isEmpty
          · rw [if_pos hemp]
            have hout := not_mem_keys_filter_self v st.user_connections
            simp only [hout, if_false]
          · rw [if_neg hemp]
            have hkeys : v ∈ ((st.user_connections.map
                (fun p => if p.1 = v then (p.1, l0.filter (fun x => decide (x ≠ c)))
                  else p)).map Prod.fst) := by
              rw [keys_map_upd]
              exact hk
            simp only [hkeys, if_true]
            rw [lookup_map_set v _ st.user_connections hk]
            simp only [Option.getD_some]
            rw [filter_idem]
            rw [if_neg hemp]
            exact map_upd_idem v _ st.user_connections
        · simp only [hk, if_false]

/-- Witness for `connect_disconnect_count_idem` on concrete data. -/
theorem connect_disconnect_count_idem_witness :
    ConnectionManager.get_active_connections_count
        (ConnectionManager.connect okAll "T0" "c2" none ⟨["c1"], []⟩).1 = 2 ∧
    ConnectionManager.get_active_connections_count
        (ConnectionManager.disconnect "c1" none ⟨["c1", "c2"], []⟩) = 1 := by
  have h := connect_disconnect_count_idem okAll "T0" "c2" none none ⟨["c1"], []⟩
  have h2 := connect_disconnect_count_idem okAll "T0" "c1" none none ⟨["c1", "c2"], []⟩
  exact ⟨h.1 (by decide) rfl, h2.2.1 (by decide) (by decide)⟩

/-! ## C7: broadcast semantics -/

theorem broadcastSweep_failed_iff (ok : String → Bool) (msg : Msg)
    (excl : List String) (l : List String) (c : String) :
    c ∈ (ConnectionManager.broadcastSweep ok msg excl l).2
      ↔ c ∈ l ∧ c ∉ excl ∧ ok c = false := by
  induction l with
  | nil => simp [ConnectionManager.broadcastSweep]
  | cons a rest ih =>
    unfold ConnectionManager.broadcastSweep
    by_cases he : a ∈ excl
    · rw [if_pos he, ih]
      constructor
      · rintro ⟨h1, h2, h3⟩
        exact ⟨List.mem_cons_of_mem a h1, h2, h3⟩
      · rintro ⟨h1, h2, h3⟩
        rcases List.mem_cons.mp h1 with rfl | h1
        · exact absurd he h2
        · exact ⟨h1, h2, h3⟩
    · rw [if_neg he]
      by_cases hok : ok a
      · rw [if_pos hok]
        simp only [ih]
        constructor
        · rintro ⟨h1, h2, h3⟩
          exact ⟨List.mem_cons_of_mem a h1, h2, h3⟩
        · rintro ⟨h1, h2, h3⟩
          rcases List.mem_cons.mp h1 with rfl | h1
          · rw [hok] at h3; exact absurd h3 (by simp)
          · exact ⟨h1, h2, h3⟩
      · rw [if_neg hok]
        simp only [List.mem_cons, ih]
        constructor
        · rintro (rfl | ⟨h1, h2, h3⟩)
          · exact ⟨Or.inl rfl, he, by simpa using hok⟩
          · exact ⟨Or.inr h1, h2, h3⟩
        · rintro ⟨h1, h2, h3⟩
          rcases h1 with rfl | h1
          · exact Or.inl rfl
          · exact Or.inr ⟨h1, h2, h3⟩

theorem broadcastSweep_delivers (ok : String → Bool) (msg : Msg)
    (excl : List String) (l : List String) (c : String) (hc : c ∈ l)
    (he : c ∉ excl) (hok : ok c = true) :
    (c, msg) ∈ (ConnectionManager.broadcastSweep ok msg excl l).1 := by
  induction l with
  | nil => simp at hc
  | cons a rest ih =>
    unfold ConnectionManager.broadcastSweep
    rcases List.mem_cons.mp hc with rfl | hc'
    · rw [if_neg he, if_pos hok]
      exact List.mem_cons_self _ _
    · by_cases hea : a ∈ excl
      · rw [if_pos hea]
        exact ih hc'
      · rw [if_neg hea]
        by_cases hoa : ok a
        · rw [if_pos hoa]
          exact List.mem_cons_of_mem _ (ih hc')
        · rw [if_neg hoa]
          exact ih hc'

theorem broadcastSweep_not_excluded (ok : String → Bool) (msg : Msg)
    (excl : List String) (l : List String) :
    ∀ d ∈ (ConnectionManager.broadcastSweep ok msg excl l).1, d.1 ∉ excl := by
  induction l with
  | nil => intro d hd; simp [ConnectionManager.broadcastSweep] at hd
  | cons a rest ih =>
    intro d hd
    unfold ConnectionManager.broadcastSweep at hd
    by_cases he : a ∈ excl
    · rw [if_pos he] at hd
      exact ih d hd
    · rw [if_neg he] at hd
      by_cases hok : ok a
      · rw [if_pos hok] at hd
        rcases List.mem_cons.mp hd with rfl | hd'
        · exact he
        · exact ih d hd'
      · rw [if_neg hok] at hd
        exact ih d hd

theorem foldl_disconnect_none (fs : List String) (st : CMState) :
    fs.foldl (fun s c => ConnectionManager.disconnect c none s) st
      = ⟨st.active_connections.filter (fun c => decide (c ∉ fs)),
         st.user_connections⟩ := by
  induction fs generalizing st with
  | nil => simp
  | cons f rest ih =>
    rw [List.foldl_cons, ih]
    unfold ConnectionManager.disconnect
    refine congrArg₂ CMState.mk ?_ rfl
    rw [List.filter_filter]
    apply List.filter_congr
    intro a _
    by_cases haf : a = f
    · simp [haf]
    · by_cases har : a ∈ rest <;> simp [haf, har]

/-- C7: `broadcast(message, exclude)` never delivers to an excluded
connection; it attempts every other live connection even when some sends
fail mid-sweep (every live, non-excluded connection whose transport works
receives the message); and only after the sweep it disconnects exactly
the connections whose send failed — the final active map keeps precisely
the excluded or healthy connections, and the user index is untouched
(the cleanup in `broadcast` calls `disconnect` without a `user_id`). -/
theorem broadcast_spec (ok : String → Bool) (msg : Msg) (excl : List String)
    (st : CMState) :
    (∀ d ∈ (ConnectionManager.broadcast ok msg excl st).2, d.1 ∉ excl) ∧
    (∀ c ∈ st.active_connections, c ∉ excl → ok c = true →
      (c, msg) ∈ (ConnectionManager.broadcast ok msg excl st).2) ∧
    ((ConnectionManager.broadcast ok msg excl st).1.active_connections
      = st.active_connections.filter (fun c => decide (c ∈ excl) || ok c)) ∧
    ((ConnectionManager.broadcast ok msg excl st).1.user_connections
      = st.user_connections) := by
  refine ⟨?_, ?_, ?_, ?_⟩
  · intro d hd
    exact broadcastSweep_not_excluded ok msg excl st.active_connections d hd
  · intro c hc he hok
    exact broadcastSweep_delivers ok msg excl st.active_connections c hc he hok
  · show (List.foldl _ st _).active_connections = _
    rw [foldl_disconnect_none]
    apply List.filter_congr
    intro a ha
    by_cases he : a ∈ excl
    · have hnf : a ∉ (ConnectionManager.broadcastSweep ok msg excl
          st.active_connections).2 := fun hf =>
        ((broadcastSweep_failed_iff ok msg excl st.active_connections a).mp hf).2.1 he
      simp [he, hnf]
    · by_cases hok : ok a
      · have hnf : a ∉ (ConnectionManager.broadcastSweep ok msg excl
            st.active_connections).2 := fun hf => by
          have := ((broadcastSweep_failed_iff ok msg excl
            st.active_connections a).mp hf).2.2
          rw [hok] at this
          exact Bool.noConfusion this
        simp [he, hok, hnf]
      · have hf : a ∈ (ConnectionManager.broadcastSweep ok msg excl
            st.active_connections).2 :=
          (broadcastSweep_failed_iff ok msg excl st.active_connections a).mpr
            ⟨ha, he, by simpa using hok⟩
        simp [he, hf, Bool.eq_false_iff.mpr hok]
  · show (List.foldl _ st _).user_connections = _
    rw [foldl_disconnect_none]

/-- Witness for `broadcast_spec`: two live connections, `c2` excluded —
`c1` receives the payload and the registry keeps both connections. -/
theorem broadcast_spec_witness :
    (("c1", [("type", JValue.str "x")]) ∈
      (ConnectionManager.broadcast okAll [("type", JValue.str "x")] ["c2"]
        ⟨["c1", "c2"], []⟩).2) ∧
    (ConnectionManager.broadcast okAll [("type", JValue.str "x")] ["c2"]
        ⟨["c1", "c2"], []⟩).1.user_connections = [] := by
  have h := broadcast_spec okAll [("type", JValue.str "x")] ["c2"] ⟨["c1", "c2"], []⟩
  exact ⟨h.2.1 "c1" (by decide) (by decide) rfl, h.2.2.2⟩

/-! ## C1 and C5: the endpoint against the active manager -/

/-- C1: a session that sends `{type:"bogus"}` and then `{type:"ping"}`
produces *no* reply at all — no `error` envelope and no `pong` — and the
receive loop never dispatches a single envelope. The endpoint dies inside
its `try` before the loop: `manager.connect` is called with the keyword
argument `metadata`, which is not a parameter of the active `connect`
(TypeError), and the error-notification and `pong`/`error` replies all go
through `manager.send_message`, a method the active `ConnectionManager`
does not define. -/
theorem unknown_type_then_ping_no_replies :
    (websocket_endpoint okAll none none b64Id "T0" "c1" none
        [[("type", JValue.str "bogus")], [("type", JValue.str "ping")]]
        ⟨[], []⟩).deliveries = [] ∧
    (websocket_endpoint okAll none none b64Id "T0" "c1" none
        [[("type", JValue.str "bogus")], [("type", JValue.str "ping")]]
        ⟨[], []⟩).loopEntered = false ∧
    decide ("send_message" ∈ ConnectionManager.methods) = false ∧
    endpointConnectKwargs.all (fun k => k ∈ ConnectionManager.connectParams)
        = false := by
  exact ⟨rfl, rfl, by decide, by decide⟩

/-- C5: the room subsystem exists only in the commented-out variant of the
manager. A session that sends `{type:"join_room", room:"main"}` delivers no
`room_joined` acknowledgment and never enters the loop (the `TypeError` on
`connect` pre-empts it), and the active class defines none of `join_room`,
`leave_room`, `send_to_room`; its `disconnect` contains no room-purge step
because the state (`CMState`) has no room structure at all. -/
theorem join_room_never_tracked :
    (websocket_endpoint okAll none none b64Id "T0" "c1" none
        [[("type", JValue.str "join_room"), ("room", JValue.str "main")]]
        ⟨[], []⟩).deliveries = [] ∧
    (websocket_endpoint okAll none none b64Id "T0" "c1" none
        [[("type", JValue.str "join_room"), ("room", JValue.str "main")]]
        ⟨[], []⟩).loopEntered = false ∧
    decide ("join_room" ∈ ConnectionManager.methods) = false ∧
    decide ("leave_room" ∈ ConnectionManager.methods) = false ∧
    decide ("send_to_room" ∈ ConnectionManager.methods) = false := by
  exact ⟨rfl, rfl, by decide, by decide, by decide⟩

/-! ## C8: speech_to_text soft-failure -/

/-- C8 counterexample: before background initialization has completed
(`is_initialized = false`, the state every `VoiceService()` starts in),
`speech_to_text` raises `RuntimeError` instead of returning a placeholder;
and the placeholder it returns in soft-failure paths carries confidence
0.95 — a high-confidence canned answer, not a low-confidence one. -/
theorem stt_uninitialized_raises :
    VoiceService.speech_to_text ⟨false, true, false⟩
        ⟨none, Except.ok (), Except.error ()⟩ "audio" "en"
      = Except.error (.runtimeError "Voice service not initialized") ∧
    VoiceService.mockSttResponse.confidence = (95 : ℚ) / 100 := by
  exact ⟨rfl, rfl⟩

/-- C8 amended: once `is_initialized` is true, `speech_to_text` never
raises — every path returns a response of the `{text, language, segments,
confidence}` shape: the cached value on a cache hit, and otherwise the
fixed mock placeholder on every soft-failure path (mock mode, missing
model, unreadable audio, failed transcription), the real transcription
result only when all of those succeed. Before initialization it raises
`RuntimeError`. -/
theorem stt_initialized_never_raises (svc : VoiceService.VoiceState)
    (env : VoiceService.SttEnv) (audio lang : String)
    (h : svc.is_initialized = true) :
    (∃ r, VoiceService.speech_to_text svc env audio lang = Except.ok r) ∧
    (env.cached = none → svc.mock_mode = true →
      VoiceService.speech_to_text svc env audio lang
        = Except.ok VoiceService.mockSttResponse) := by
  constructor
  · unfold VoiceService.speech_to_text
    rw [h]
    simp only [Bool.not_true, Bool.false_eq_true, if_false]
    cases env.cached with
    | some c => exact ⟨c, rfl⟩
    | none =>
      by_cases hm : (svc.mock_mode || !svc.stt_model) = true
      · exact ⟨VoiceService.mockSttResponse, by simp [hm]⟩
      · simp only [hm, if_false]
        cases hw : env.wav_read with
        | error e => exact ⟨VoiceService.mockSttResponse, by simp⟩
        | ok _ =>
          cases hwh : env.whisper with
          | error e => exact ⟨VoiceService.mockSttResponse, by simp⟩
          | ok r => exact ⟨r, by simp⟩
  · intro hc hm
    unfold VoiceService.speech_to_text
    rw [h, hc, hm]
    simp

/-- Witness for `stt_initialized_never_raises` at a concrete mock-mode
state. -/
theorem stt_initialized_never_raises_witness :
    VoiceService.speech_to_text ⟨true, true, false⟩
        ⟨none, Except.ok (), Except.error ()⟩ "audio" "en"
      = Except.ok VoiceService.mockSttResponse := by
  exact (stt_initialized_never_raises ⟨true, true, false⟩
    ⟨none, Except.ok (), Except.error ()⟩ "audio" "en" rfl).2 rfl rfl

/-! ## C9: camera_frame with no detectable face -/

/-- C9: on a valid frame in which the vision service detects no face, the
handler raises nothing and leaves the registry untouched — but it also
sends *no* reply: the `vision_update` payload it builds (with `faces: []`
and `emotion: null`) is dropped because `manager.send_message` is not a
method of the active `ConnectionManager`; the `AttributeError` is caught
by the `except` of the handler, which only logs. -/
theorem camera_frame_no_face_silent :
    (handle_camera_frame (some visionSeeingNoFaces) b64Id "T0" "c1"
        [("type", JValue.str "camera_frame"), ("frame", JValue.str "QUFBQQ==")]
        ⟨["c1"], []⟩).raised = false ∧
    (handle_camera_frame (some visionSeeingNoFaces) b64Id "T0" "c1"
        [("type", JValue.str "camera_frame"), ("frame", JValue.str "QUFBQQ==")]
        ⟨["c1"], []⟩).deliveries = [] ∧
    (handle_camera_frame (some visionSeeingNoFaces) b64Id "T0" "c1"
        [("type", JValue.str "camera_frame"), ("frame", JValue.str "QUFBQQ==")]
        ⟨["c1"], []⟩).state = ⟨["c1"], []⟩ ∧
    (visionUpdateMsg [] [] none "T0").lookup "faces" = some (.arr []) ∧
    (visionUpdateMsg [] [] none "T0").lookup "emotion" = some .null ∧
    decide ("send_message" ∈ ConnectionManager.methods) = false := by
  exact ⟨rfl, rfl, rfl, rfl, rfl, by decide⟩

/-! ## C10: missing payloads are silently ignored -/

/-- C10: `handle_camera_frame` with a missing/empty (falsy) `frame` field or
no vision service, and `handle_audio_chunk` with a missing/empty (falsy)
`audio` field or no voice service, return immediately: registry unchanged,
no reply of any kind (not even an error envelope), no exception. -/
theorem missing_payload_silently_ignored (vision : Option VisionPort)
    (voice : Option (String → Except Unit SttResponse))
    (b64 : String → Except Unit String) (now cid : String) (data : Msg)
    (st : CMState) :
    (jFalsy (data.lookup "frame") = true ∨ vision = none →
      handle_camera_frame vision b64 now cid data st = ⟨st, [], false⟩) ∧
    (jFalsy (data.lookup "audio") = true ∨ voice = none →
      handle_audio_chunk voice b64 cid data st = ⟨st, [], false⟩) := by
  constructor
  · intro h
    unfold handle_camera_frame
    have : (jFalsy (data.lookup "frame") || vision.isNone) = true := by
      rcases h with h | h
      · simp [h]
      · simp [h]
    rw [if_pos this]
  · intro h
    unfold handle_audio_chunk
    have : (jFalsy (data.lookup "audio") || voice.isNone) = true := by
      rcases h with h | h
      · simp [h]
      · simp [h]
    rw [if_pos this]

/-- Witness for `missing_payload_silently_ignored`: an envelope with an
empty `frame` and a missing `audio` field. -/
theorem missing_payload_silently_ignored_witness :
    handle_camera_frame (some visionSeeingNoFaces) b64Id "T0" "c1"
        [("type", JValue.str "camera_frame"), ("frame", JValue.str "")]
        ⟨["c1"], []⟩ = ⟨⟨["c1"], []⟩, [], false⟩ ∧
    handle_audio_chunk none b64Id "c1"
        [("type", JValue.str "audio_chunk")] ⟨["c1"], []⟩
      = ⟨⟨["c1"], []⟩, [], false⟩ := by
  have h := missing_payload_silently_ignored (some visionSeeingNoFaces) none
    b64Id "T0" "c1" [("type", JValue.str "camera_frame"), ("frame", JValue.str "")]
    ⟨["c1"], []⟩
  have h2 := missing_payload_silently_ignored (some visionSeeingNoFaces) none
    b64Id "T0" "c1" [("type", JValue.str "audio_chunk")] ⟨["c1"], []⟩
  exact ⟨h.1 (Or.inl rfl), h2.2 (Or.inr rfl)⟩

end Jarvis
